import Mathlib

/-!
Shallow embedding of the Flask + Google Sheets cricket-statistics backend
(`app.py`).  The spreadsheet is modelled as typed rows (`sheet_players`,
`sheet_matches`): `update_sheet` either replaces a sheet's rows or raises, and
`load_data_from_sheets` either parses the sheets back into the cache
(recomputing each next-ID counter as one more than the largest stored ID) or
fails, resetting the cache to empty with both counters 1.  Each HTTP handler is
embedded as a pure function from the system state, the parsed JSON body and the
outcomes of its external calls to a response and a new state.
-/

namespace CBZ

/-- A row of the Players sheet / an entry of `_cached_data['players']`. -/
structure Player where
  id : Int
  name : String
  role : String
  batting_style : String
  bowling_style : String
deriving DecidableEq, Repr

/-- A row of the Matches sheet / an entry of `_cached_data['matches']`.
`overs` is a Python float in the source; it is only stored and copied back
verbatim, never computed with, so it is embedded as a rational number. -/
structure Match where
  id : Int
  player_id : Int
  did_bat : Bool
  runs : Int
  balls : Int
  wickets : Int
  overs : Rat
  conceded : Int
  catches : Int
  stumpings : Int
  run_outs : Int
deriving DecidableEq, Repr

/-- The global `_cached_data` dictionary. -/
structure Cache where
  players : List Player
  «matches» : List Match
  next_player_id : Int
  next_match_id : Int
deriving DecidableEq, Repr

/-- The full system state: the two persisted sheets plus the in-memory cache. -/
structure Sys where
  sheet_players : List Player
  sheet_matches : List Match
  cache : Cache
deriving DecidableEq, Repr

/-- ASCII lowering of one character: `A`..`Z` becomes `a`..`z`, everything
else is unchanged. -/
def pyLowerChar (c : Char) : Char :=
  if 65 ≤ c.toNat ∧ c.toNat ≤ 90 then Char.ofNat (c.toNat + 32) else c

/-- Python `str.lower()` restricted to ASCII.  The source compares display
names with `.lower()`; the claims only concern ASCII case, where this agrees
with Python. -/
def pyLower (s : String) : String := ⟨s.data.map pyLowerChar⟩

/-- The `max_player_id` / `max_match_id` accumulation in
`load_data_from_sheets`: the accumulator starts at 0 and folds `max` over the
parsed IDs. -/
def maxId (ids : List Int) : Int := ids.foldl max 0

/-- The cache installed by the exception handlers of `load_data_from_sheets`:
empty lists, both counters 1. -/
def emptyCache : Cache := ⟨[], [], 1, 1⟩

/-- `load_data_from_sheets`: on success the cache becomes the parsed sheet
contents with each next-ID counter recomputed as `maxId + 1` (hence 1 when a
sheet has no data rows); on any `HttpError` or other exception the cache is
reset to `emptyCache`.  The function itself never raises. -/
def load_data_from_sheets (ok : Bool) (s : Sys) : Sys :=
  if ok then
    { s with cache :=
        { players := s.sheet_players
          «matches» := s.sheet_matches
          next_player_id := maxId (s.sheet_players.map Player.id) + 1
          next_match_id := maxId (s.sheet_matches.map Match.id) + 1 } }
  else
    { s with cache := emptyCache }

/-- JSON response bodies produced by the handlers. -/
inductive Body where
  | playersList (xs : List (Player × List Match))
  | playerDetail (p : Player) (ms : List Match)
  | matchJson (m : Match)
  | message (s : String)
  | error (s : String)
deriving DecidableEq, Repr

/-- An HTTP response: status code and JSON body. -/
structure Response where
  status : Nat
  body : Body
deriving DecidableEq, Repr

/-- The id carried by a 201 player-creation body, if any. -/
def Body.playerId : Body → Option Int
  | .playerDetail p _ => some p.id
  | _ => none

/-- The id carried by a 201 match-creation body, if any. -/
def Body.matchId : Body → Option Int
  | .matchJson m => some m.id
  | _ => none

/-- Parsed JSON body for player create / update; `none` models an absent key
(`data.get(k)` returning `None`, resp. `data.get(k, default)` falling back). -/
structure PlayerBody where
  name : Option String := none
  role : Option String := none
  batting_style : Option String := none
  bowling_style : Option String := none
deriving DecidableEq, Repr

/-- Parsed JSON body for match create / update. -/
structure MatchBody where
  did_bat : Option Bool := none
  runs : Option Int := none
  balls : Option Int := none
  wickets : Option Int := none
  overs : Option Rat := none
  conceded : Option Int := none
  catches : Option Int := none
  stumpings : Option Int := none
  run_outs : Option Int := none
deriving DecidableEq, Repr

/-- Apply `g` to the first element satisfying `f`, as Python's in-place
mutation of the record found by `next(...)` / the index loop does. -/
def updateFirst (f : α → Bool) (g : α → α) : List α → List α
  | [] => []
  | x :: xs => if f x then g x :: xs else x :: updateFirst f g xs

/-- Remove the first element satisfying `f`, as `list.pop(index)` of the first
matching index does. -/
def removeFirst (f : α → Bool) : List α → List α
  | [] => []
  | x :: xs => if f x then xs else x :: removeFirst f xs

/-- `GET /players`: every cached player with its matches attached. -/
def handle_players_GET (s : Sys) : Response :=
  ⟨200, .playersList (s.cache.players.map (fun p =>
    (p, s.cache.matches.filter (fun m => m.player_id == p.id))))⟩

/-- `POST /players` (`handle_players`, POST branch).  `writeOk` is the outcome
of the `update_sheet` call, `reloadOk` of the reload that follows a successful
write. -/
def handle_players_POST (s : Sys) (data : PlayerBody) (writeOk reloadOk : Bool) :
    Response × Sys :=
  match data.name with
  | none => (⟨400, .error "Player name is required"⟩, s)
  | some name =>
    if name = "" then
      (⟨400, .error "Player name is required"⟩, s)
    else if s.cache.players.any (fun p => pyLower p.name == pyLower name) then
      (⟨409, .error "Player with this name already exists"⟩, s)
    else
      let role := data.role.getD ""
      let batting_style := data.batting_style.getD ""
      let bowling_style := data.bowling_style.getD ""
      let new_player_id := s.cache.next_player_id
      let new_player : Player :=
        ⟨new_player_id, name, role, batting_style, bowling_style⟩
      let c1 : Cache := { s.cache with
          players := s.cache.players ++ [new_player]
          next_player_id := s.cache.next_player_id + 1 }
      let s1 : Sys := { s with cache := c1 }
      if writeOk then
        (⟨201, .playerDetail new_player []⟩,
          load_data_from_sheets reloadOk { s1 with sheet_players := c1.players })
      else
        (⟨500, .error "Failed to add player"⟩,
          { s1 with cache := { c1 with
              players := c1.players.erase new_player
              next_player_id := c1.next_player_id - 1 } })

/-- `GET /players/{id}` (`handle_player`, GET branch). -/
def handle_player_GET (s : Sys) (player_id : Int) : Response :=
  match s.cache.players.find? (fun p => p.id == player_id) with
  | none => ⟨404, .message "Player not found"⟩
  | some player =>
    ⟨200, .playerDetail player
      (s.cache.matches.filter (fun m => m.player_id == player_id))⟩

/-- `PUT /players/{id}` (`handle_player`, PUT branch).  The found player is
mutated in place; note the absence of any rollback on write failure. -/
def handle_player_PUT (s : Sys) (player_id : Int) (data : PlayerBody)
    (writeOk reloadOk : Bool) : Response × Sys :=
  match s.cache.players.find? (fun p => p.id == player_id) with
  | none => (⟨404, .message "Player not found"⟩, s)
  | some player =>
    let name := data.name.getD player.name
    let role := data.role.getD player.role
    let batting_style := data.batting_style.getD player.batting_style
    let bowling_style := data.bowling_style.getD player.bowling_style
    if (pyLower name != pyLower player.name) &&
        (s.cache.players.filter (fun p => p.id != player_id)).any
          (fun p => pyLower p.name == pyLower name) then
      (⟨409, .error "Player with this name already exists"⟩, s)
    else
      let upd : Player → Player := fun p =>
        { p with name := name, role := role,
                 batting_style := batting_style, bowling_style := bowling_style }
      let c1 : Cache := { s.cache with
          players := updateFirst (fun p => p.id == player_id) upd s.cache.players }
      let s1 : Sys := { s with cache := c1 }
      if writeOk then
        (⟨200, .message "Player updated successfully"⟩,
          load_data_from_sheets reloadOk { s1 with sheet_players := c1.players })
      else
        (⟨500, .error "Failed to update player"⟩, s1)

/-- `DELETE /players/{id}` (`handle_player`, DELETE branch).  Two sheet writes
(players first, then matches); full snapshot rollback on either failure. -/
def handle_player_DELETE (s : Sys) (player_id : Int)
    (write1Ok write2Ok reloadOk : Bool) : Response × Sys :=
  match s.cache.players.find? (fun p => p.id == player_id) with
  | none => (⟨404, .message "Player not found"⟩, s)
  | some _ =>
    let original_players := s.cache.players
    let original_matches := s.cache.matches
    let c1 : Cache := { s.cache with
        players := s.cache.players.filter (fun p => p.id != player_id)
        «matches» := s.cache.matches.filter (fun m => m.player_id != player_id) }
    let s1 : Sys := { s with cache := c1 }
    if write1Ok then
      let s2 : Sys := { s1 with sheet_players := c1.players }
      if write2Ok then
        (⟨200, .message "Player and associated matches deleted successfully"⟩,
          load_data_from_sheets reloadOk { s2 with sheet_matches := c1.matches })
      else
        (⟨500, .error "Failed to delete player"⟩,
          { s2 with cache := { s2.cache with
              players := original_players, «matches» := original_matches } })
    else
      (⟨500, .error "Failed to delete player"⟩,
        { s1 with cache := { s1.cache with
            players := original_players, «matches» := original_matches } })

/-- `POST /players/{id}/matches` (`add_match_to_player`). -/
def add_match_to_player (s : Sys) (player_id : Int) (data : MatchBody)
    (writeOk reloadOk : Bool) : Response × Sys :=
  let did_bat := data.did_bat.getD false
  let runs := data.runs.getD 0
  let balls := data.balls.getD 0
  let wickets := data.wickets.getD 0
  let overs := data.overs.getD 0
  let conceded := data.conceded.getD 0
  let catches := data.catches.getD 0
  let stumpings := data.stumpings.getD 0
  let run_outs := data.run_outs.getD 0
  if !(s.cache.players.any (fun p => p.id == player_id)) then
    (⟨404, .error "Player not found"⟩, s)
  else
    let new_match_id := s.cache.next_match_id
    let new_match : Match :=
      ⟨new_match_id, player_id, did_bat, runs, balls, wickets, overs,
        conceded, catches, stumpings, run_outs⟩
    let c1 : Cache := { s.cache with
        «matches» := s.cache.matches ++ [new_match]
        next_match_id := s.cache.next_match_id + 1 }
    let s1 : Sys := { s with cache := c1 }
    if writeOk then
      (⟨201, .matchJson new_match⟩,
        load_data_from_sheets reloadOk { s1 with sheet_matches := c1.matches })
    else
      (⟨500, .error "Failed to add match"⟩,
        { s1 with cache := { c1 with
            «matches» := c1.matches.erase new_match
            next_match_id := c1.next_match_id - 1 } })

/-- `PUT /matches/{id}` (`handle_match`, PUT branch).  Every field falls back
to the current value; there is no empty-body check and no rollback on write
failure.  The success body is the updated record. -/
def handle_match_PUT (s : Sys) (match_id : Int) (data : MatchBody)
    (writeOk reloadOk : Bool) : Response × Sys :=
  match s.cache.matches.find? (fun m => m.id == match_id) with
  | none => (⟨404, .message "Match not found"⟩, s)
  | some current_match =>
    let upd : Match → Match := fun m =>
      { m with
          did_bat := data.did_bat.getD m.did_bat
          runs := data.runs.getD m.runs
          balls := data.balls.getD m.balls
          wickets := data.wickets.getD m.wickets
          overs := data.overs.getD m.overs
          conceded := data.conceded.getD m.conceded
          catches := data.catches.getD m.catches
          stumpings := data.stumpings.getD m.stumpings
          run_outs := data.run_outs.getD m.run_outs }
    let c1 : Cache := { s.cache with
        «matches» := updateFirst (fun m => m.id == match_id) upd s.cache.matches }
    let s1 : Sys := { s with cache := c1 }
    if writeOk then
      (⟨200, .matchJson (upd current_match)⟩,
        load_data_from_sheets reloadOk { s1 with sheet_matches := c1.matches })
    else
      (⟨500, .error "Failed to update match"⟩, s1)

/-- `DELETE /matches/{id}` (`handle_match`, DELETE branch). -/
def handle_match_DELETE (s : Sys) (match_id : Int) (writeOk reloadOk : Bool) :
    Response × Sys :=
  match s.cache.matches.find? (fun m => m.id == match_id) with
  | none => (⟨404, .message "Match not found"⟩, s)
  | some _ =>
    let original_matches := s.cache.matches
    let c1 : Cache := { s.cache with
        «matches» := removeFirst (fun m => m.id == match_id) s.cache.matches }
    let s1 : Sys := { s with cache := c1 }
    if writeOk then
      (⟨200, .message "Match deleted successfully"⟩,
        load_data_from_sheets reloadOk { s1 with sheet_matches := c1.matches })
    else
      (⟨500, .error "Failed to delete match"⟩,
        { s1 with cache := { s1.cache with «matches» := original_matches } })

/-- A system state whose cache mirrors the sheets, with counters computed the
way a fresh `load_data_from_sheets` would. -/
def mkSys (ps : List Player) (ms : List Match) : Sys :=
  ⟨ps, ms, ⟨ps, ms, maxId (ps.map Player.id) + 1, maxId (ms.map Match.id) + 1⟩⟩

/-- Concrete fixture player. -/
def pAmit : Player := ⟨1, "Amit", "batsman", "right", ""⟩

/-- Concrete fixture player. -/
def pRohit : Player := ⟨2, "Rohit", "bowler", "", "leg spin"⟩

/-- Concrete fixture player with an empty display name (loadable from a sheet
row whose name cell is blank). -/
def pBlank : Player := ⟨1, "", "", "", ""⟩

/-- Concrete fixture match belonging to `pAmit`. -/
def mOne : Match := ⟨1, 1, true, 10, 8, 0, 0, 0, 1, 0, 0⟩

/-- Concrete fixture match belonging to `pRohit`. -/
def mTwo : Match := ⟨2, 2, false, 0, 0, 1, 2, 12, 0, 0, 0⟩

/-- The request body of the round-trip scenario from the specification. -/
def rahulBody : PlayerBody := { name := some "Rahul", role := some "batsman" }

/-- `updateFirst` with a pointwise-identity update leaves the list unchanged. -/
theorem updateFirst_eq_self (f : α → Bool) (g : α → α) (h : ∀ x, g x = x)
    (l : List α) : updateFirst f g l = l := by
  induction l with
  | nil => rfl
  | cons x xs ih =>
    unfold updateFirst
    split
    · rw [h x]
    · rw [ih]

/-- Erasing a freshly appended element that occurs nowhere else in the list
recovers the original list. -/
theorem erase_append_singleton {α : Type} [DecidableEq α] (l : List α) (a : α)
    (h : ∀ x ∈ l, x ≠ a) : (l ++ [a]).erase a = l := by
  induction l with
  | nil => simp
  | cons x xs ih =>
    have hx : (x == a) = false := by
      simpa using h x (List.mem_cons_self x xs)
    simp [List.erase_cons, hx,
      ih (fun y hy => h y (List.mem_cons_of_mem _ hy))]

/-- Folding `max` keeps the accumulator below any common upper bound. -/
theorem foldl_max_le (a : Int) :
    ∀ (l : List Int) (acc : Int), acc ≤ a → (∀ x ∈ l, x ≤ a) →
      l.foldl max acc ≤ a := by
  intro l
  induction l with
  | nil =>
    intro acc hacc _
    simpa using hacc
  | cons x xs ih =>
    intro acc hacc h
    simp only [List.foldl_cons]
    exact ih _ (max_le hacc (h x (List.mem_cons_self x xs)))
      (fun y hy => h y (List.mem_cons_of_mem x hy))

/-- When every entry of `l` is at most a nonnegative `a`, the `maxId` of
`l ++ [a]` is exactly `a`. -/
theorem maxId_append_singleton (l : List Int) (a : Int) (ha : 0 ≤ a)
    (h : ∀ x ∈ l, x ≤ a) : maxId (l ++ [a]) = a := by
  unfold maxId
  rw [List.foldl_append]
  simp only [List.foldl_cons, List.foldl_nil]
  exact max_eq_right (foldl_max_le a l 0 ha h)

/-- C8: whenever `load_data_from_sheets` fails, the cache is left with an
empty players list, an empty matches list and both next-ID counters equal to
1, regardless of its previous contents — nothing survives a failed refresh. -/
theorem load_failure_resets_cache (s : Sys) :
    (load_data_from_sheets false s).cache.players = [] ∧
    (load_data_from_sheets false s).cache.matches = [] ∧
    (load_data_from_sheets false s).cache.next_player_id = 1 ∧
    (load_data_from_sheets false s).cache.next_match_id = 1 :=
  ⟨rfl, rfl, rfl, rfl⟩

/-- C5: `POST /players/{id}/matches` for a player id that is not present in
the players list returns 404 and leaves the whole state — in particular the
matches list and the next-match-ID counter — unchanged. -/
theorem add_match_unknown_player_404 (s : Sys) (pid : Int) (data : MatchBody)
    (w r : Bool) (h : ∀ p ∈ s.cache.players, p.id ≠ pid) :
    (add_match_to_player s pid data w r).1.status = 404 ∧
    (add_match_to_player s pid data w r).2 = s := by
  have hany : s.cache.players.any (fun p => p.id == pid) = false := by
    simp only [List.any_eq_false, beq_iff_eq]
    exact h
  constructor <;> simp [add_match_to_player, hany]

/-- Witness for C5: adding a match under the absent player id 9999. -/
theorem add_match_unknown_player_404_witness :
    (add_match_to_player (mkSys [pAmit] []) 9999 {} true true).1.status = 404 ∧
    (add_match_to_player (mkSys [pAmit] []) 9999 {} true true).2
      = mkSys [pAmit] [] :=
  add_match_unknown_player_404 (mkSys [pAmit] []) 9999 {} true true (by decide)

/-- C1 counterexample: on a stored match with id 1, a PUT whose JSON body
supplies no fields is answered with status 200 — a success, not a
Bad-Request-class response; the handler has no empty-body check. -/
theorem match_put_empty_body_returns_200 :
    (handle_match_PUT (mkSys [pAmit] [mOne]) 1 {} true true).1.status = 200 ∧
    ¬(400 ≤ (handle_match_PUT (mkSys [pAmit] [mOne]) 1 {} true true).1.status ∧
      (handle_match_PUT (mkSys [pAmit] [mOne]) 1 {} true true).1.status < 500) := by
  decide

/-- C1 amended: a PUT on a stored match whose JSON body supplies no fields
leaves the stored matches list (and hence every field of that match)
unchanged, but returns 200 when the persistence write succeeds and 500 when
it fails — never a Bad-Request-class response. -/
theorem match_put_empty_body_preserves_match (s : Sys) (mid : Int) (w : Bool)
    (h : (s.cache.matches.find? (fun m => m.id == mid)).isSome) :
    (handle_match_PUT s mid {} w true).1.status = (if w then 200 else 500) ∧
    (handle_match_PUT s mid {} w true).2.cache.matches = s.cache.matches := by
  obtain ⟨cm, hcm⟩ := Option.isSome_iff_exists.mp h
  simp only [handle_match_PUT, hcm]
  have hupd : updateFirst (fun m => m.id == mid)
      (fun m : Match =>
        { id := m.id, player_id := m.player_id, did_bat := none.getD m.did_bat,
          runs := none.getD m.runs, balls := none.getD m.balls,
          wickets := none.getD m.wickets, overs := none.getD m.overs,
          conceded := none.getD m.conceded, catches := none.getD m.catches,
          stumpings := none.getD m.stumpings, run_outs := none.getD m.run_outs })
      s.cache.matches = s.cache.matches :=
    updateFirst_eq_self _ _ (fun m => rfl) _
  rw [hupd]
  cases w <;> simp [load_data_from_sheets]

/-- Witness for the amended C1 at a concrete state and match. -/
theorem match_put_empty_body_preserves_match_witness :
    (handle_match_PUT (mkSys [pRohit] [mTwo]) 2 {} true true).1.status
      = (if true then 200 else 500) ∧
    (handle_match_PUT (mkSys [pRohit] [mTwo]) 2 {} true true).2.cache.matches
      = (mkSys [pRohit] [mTwo]).cache.matches :=
  match_put_empty_body_preserves_match (mkSys [pRohit] [mTwo]) 2 true (by decide)

/-- `POST /players` with a missing or empty name answers 400 and changes
nothing. -/
theorem post_missing_name_eq (s : Sys) (data : PlayerBody) (w r : Bool)
    (h : data.name = none ∨ data.name = some "") :
    handle_players_POST s data w r
      = (⟨400, .error "Player name is required"⟩, s) := by
  rcases h with h | h <;> simp [handle_players_POST, h]

/-- `POST /players` with a nonempty name whose lowering collides with a
cached player's lowered name answers 409 and changes nothing. -/
theorem post_duplicate_eq (s : Sys) (data : PlayerBody) (w r : Bool)
    (name : String) (hn : data.name = some name) (hne : ¬ name = "")
    (hany : s.cache.players.any
      (fun p => pyLower p.name == pyLower name) = true) :
    handle_players_POST s data w r
      = (⟨409, .error "Player with this name already exists"⟩, s) := by
  simp [handle_players_POST, hn, hne, hany]

/-- C4 counterexample: with a cached player whose display name is empty, a
POST supplying the (case-insensitively equal) name `""` is answered 400 by
the missing-name check, not with the conflict status 409. -/
theorem post_duplicate_empty_name_returns_400 :
    pBlank ∈ (mkSys [pBlank] []).cache.players ∧
    pyLower "" = pyLower pBlank.name ∧
    (handle_players_POST (mkSys [pBlank] [])
      ⟨some "", none, none, none⟩ true true).1.status = 400 ∧
    (handle_players_POST (mkSys [pBlank] [])
      ⟨some "", none, none, none⟩ true true).1.status ≠ 409 := by
  decide

/-- C4 amended: a POST whose supplied name is nonempty and equal, up to ASCII
case, to a cached player's name returns 409 and leaves the entire state (the
players list, matches list and both next-ID counters) unchanged. -/
theorem post_duplicate_name_conflict (s : Sys) (data : PlayerBody) (w r : Bool)
    (name : String) (hn : data.name = some name) (hne : name ≠ "")
    (hdup : ∃ p ∈ s.cache.players, pyLower p.name = pyLower name) :
    (handle_players_POST s data w r).1.status = 409 ∧
    (handle_players_POST s data w r).2 = s := by
  have hany : s.cache.players.any
      (fun p => pyLower p.name == pyLower name) = true := by
    obtain ⟨p, hp, hpe⟩ := hdup
    exact List.any_eq_true.mpr ⟨p, hp, by simpa using hpe⟩
  rw [post_duplicate_eq s data w r name hn hne hany]
  exact ⟨rfl, rfl⟩

/-- Witness for the amended C4: posting `"AMIT"` over the cached `"Amit"`. -/
theorem post_duplicate_name_conflict_witness :
    (handle_players_POST (mkSys [pAmit] [])
      ⟨some "AMIT", none, none, none⟩ true true).1.status = 409 ∧
    (handle_players_POST (mkSys [pAmit] [])
      ⟨some "AMIT", none, none, none⟩ true true).2 = mkSys [pAmit] [] :=
  post_duplicate_name_conflict (mkSys [pAmit] [])
    ⟨some "AMIT", none, none, none⟩ true true "AMIT" rfl (by decide)
    ⟨pAmit, by decide, by decide⟩

/-- C10: both rejection checks of `POST /players` run before any mutation, so
a request rejected with 400 (missing or empty name) or 409 (case-insensitive
duplicate) leaves the state — in particular the players list and the
next-player-ID counter — unchanged. -/
theorem post_rejection_no_mutation (s : Sys) (data : PlayerBody) (w r : Bool) :
    ((data.name = none ∨ data.name = some "") →
      (handle_players_POST s data w r).1.status = 400 ∧
      (handle_players_POST s data w r).2 = s) ∧
    (∀ name, data.name = some name → name ≠ "" →
      s.cache.players.any (fun p => pyLower p.name == pyLower name) = true →
      (handle_players_POST s data w r).1.status = 409 ∧
      (handle_players_POST s data w r).2 = s) := by
  constructor
  · intro h
    rw [post_missing_name_eq s data w r h]
    exact ⟨rfl, rfl⟩
  · intro name hn hne hany
    rw [post_duplicate_eq s data w r name hn hne hany]
    exact ⟨rfl, rfl⟩

/-- Witness for C10: a nameless POST and a duplicate-name POST, both leaving
the concrete state untouched. -/
theorem post_rejection_no_mutation_witness :
    ((handle_players_POST (mkSys [pRohit] [])
        ⟨none, none, none, none⟩ true true).1.status = 400 ∧
      (handle_players_POST (mkSys [pRohit] [])
        ⟨none, none, none, none⟩ true true).2 = mkSys [pRohit] []) ∧
    ((handle_players_POST (mkSys [pRohit] [])
        ⟨some "ROHIT", none, none, none⟩ true true).1.status = 409 ∧
      (handle_players_POST (mkSys [pRohit] [])
        ⟨some "ROHIT", none, none, none⟩ true true).2 = mkSys [pRohit] []) :=
  ⟨(post_rejection_no_mutation (mkSys [pRohit] [])
      ⟨none, none, none, none⟩ true true).1 (Or.inl rfl),
    (post_rejection_no_mutation (mkSys [pRohit] [])
      ⟨some "ROHIT", none, none, none⟩ true true).2
      "ROHIT" rfl (by decide) (by decide)⟩

/-- C9: a PUT on an existing player whose effective new name equals the
player's current name up to ASCII case never yields the conflict status 409
(the first conjunct of the duplicate check is already false). -/
theorem put_same_name_no_conflict (s : Sys) (pid : Int) (data : PlayerBody)
    (w r : Bool) (player : Player)
    (hfind : s.cache.players.find? (fun p => p.id == pid) = some player)
    (hname : pyLower (data.name.getD player.name) = pyLower player.name) :
    (handle_player_PUT s pid data w r).1.status ≠ 409 := by
  simp only [handle_player_PUT, hfind]
  rw [hname]
  cases w <;> simp

/-- Witness for C9: renaming `"Amit"` to `"AMIT"` (case change only) is not
answered with 409. -/
theorem put_same_name_no_conflict_witness :
    (handle_player_PUT (mkSys [pAmit] []) 1
      ⟨some "AMIT", none, none, none⟩ true true).1.status ≠ 409 :=
  put_same_name_no_conflict (mkSys [pAmit] []) 1
    ⟨some "AMIT", none, none, none⟩ true true pAmit (by decide) (by decide)

/-- C2 counterexample: `PUT /players/{id}` mutates the cached player in place
and has no rollback, so when the persistence write fails the 500 response
leaves the renamed player in the cache — the cache state after the response
differs from the state before the request. -/
theorem player_put_failure_not_rolled_back :
    (handle_player_PUT (mkSys [pAmit] []) 1
      ⟨some "Bob", none, none, none⟩ false true).1.status = 500 ∧
    (handle_player_PUT (mkSys [pAmit] []) 1
      ⟨some "Bob", none, none, none⟩ false true).2.cache
      ≠ (mkSys [pAmit] []).cache := by
  decide

/-- C2 amended: the four handlers that install a rollback (player create,
player delete, match add, match delete) do restore the pre-request cache on
any persistence-write failure; the two update handlers (player PUT, match
PUT) have no rollback and can leave a mutated cache behind a 500. -/
theorem rollback_handlers_restore_cache (s : Sys)
    (hwf : ∀ m ∈ s.cache.matches, m.id < s.cache.next_match_id) :
    (∀ data r, (handle_players_POST s data false r).2.cache = s.cache) ∧
    (∀ pid w2 r, (handle_player_DELETE s pid false w2 r).2.cache = s.cache) ∧
    (∀ pid r, (handle_player_DELETE s pid true false r).2.cache = s.cache) ∧
    (∀ pid data r, (add_match_to_player s pid data false r).2.cache = s.cache) ∧
    (∀ mid r, (handle_match_DELETE s mid false r).2.cache = s.cache) := by
  refine ⟨?_, ?_, ?_, ?_, ?_⟩
  · intro data r
    match hn : data.name with
    | none => simp [handle_players_POST, hn]
    | some name =>
      by_cases h1 : name = ""
      · simp [handle_players_POST, hn, h1]
      · by_cases h2 : s.cache.players.any
            (fun p => pyLower p.name == pyLower name) = true
        · simp [handle_players_POST, hn, h1, h2]
        · have h2f : s.cache.players.any
              (fun p => pyLower p.name == pyLower name) = false := by
            simpa using h2
          have hne : ∀ x ∈ s.cache.players,
              x ≠ (⟨s.cache.next_player_id, name, data.role.getD "",
                data.batting_style.getD "", data.bowling_style.getD ""⟩ :
                  Player) := by
            intro x hx hxe
            rw [List.any_eq_false] at h2f
            exact h2f x hx (by rw [hxe]; exact beq_self_eq_true _)
          simp only [handle_players_POST, hn, h1, h2f]
          rw [erase_append_singleton _ _ hne]
          simp [Int.add_sub_cancel]
  · intro pid w2 r
    cases hfind : s.cache.players.find? (fun p => p.id == pid) with
    | none => simp [handle_player_DELETE, hfind]
    | some pl => cases w2 <;> simp [handle_player_DELETE, hfind]
  · intro pid r
    cases hfind : s.cache.players.find? (fun p => p.id == pid) with
    | none => simp [handle_player_DELETE, hfind]
    | some pl => simp [handle_player_DELETE, hfind]
  · intro pid data r
    by_cases hex : s.cache.players.any (fun p => p.id == pid) = true
    · have hne : ∀ x ∈ s.cache.matches,
          x ≠ (⟨s.cache.next_match_id, pid, data.did_bat.getD false,
            data.runs.getD 0, data.balls.getD 0, data.wickets.getD 0,
            data.overs.getD 0, data.conceded.getD 0, data.catches.getD 0,
            data.stumpings.getD 0, data.run_outs.getD 0⟩ : Match) := by
        intro x hx hxe
        have hlt := hwf x hx
        rw [hxe] at hlt
        exact absurd hlt (lt_irrefl _)
      simp only [add_match_to_player, hex]
      rw [erase_append_singleton _ _ hne]
      simp [Int.add_sub_cancel]
    · have hexf : s.cache.players.any (fun p => p.id == pid) = false := by
        simpa using hex
      simp [add_match_to_player, hexf]
  · intro mid r
    cases hfind : s.cache.matches.find? (fun m => m.id == mid) with
    | none => simp [handle_match_DELETE, hfind]
    | some m0 => simp [handle_match_DELETE, hfind]

/-- Witness for the amended C2: each rollback handler restores the concrete
pre-request cache after a failed write. -/
theorem rollback_handlers_restore_cache_witness :
    (handle_players_POST (mkSys [pAmit] [mOne])
      ⟨some "New", none, none, none⟩ false true).2.cache
      = (mkSys [pAmit] [mOne]).cache ∧
    (handle_player_DELETE (mkSys [pAmit] [mOne]) 1 false true true).2.cache
      = (mkSys [pAmit] [mOne]).cache ∧
    (handle_player_DELETE (mkSys [pAmit] [mOne]) 1 true false true).2.cache
      = (mkSys [pAmit] [mOne]).cache ∧
    (add_match_to_player (mkSys [pAmit] [mOne]) 1 {} false true).2.cache
      = (mkSys [pAmit] [mOne]).cache ∧
    (handle_match_DELETE (mkSys [pAmit] [mOne]) 1 false true).2.cache
      = (mkSys [pAmit] [mOne]).cache :=
  ⟨(rollback_handlers_restore_cache (mkSys [pAmit] [mOne]) (by decide)).1
      ⟨some "New", none, none, none⟩ true,
    (rollback_handlers_restore_cache (mkSys [pAmit] [mOne]) (by decide)).2.1
      1 true true,
    (rollback_handlers_restore_cache (mkSys [pAmit] [mOne]) (by decide)).2.2.1
      1 true,
    (rollback_handlers_restore_cache (mkSys [pAmit] [mOne]) (by decide)).2.2.2.1
      1 {} true,
    (rollback_handlers_restore_cache (mkSys [pAmit] [mOne]) (by decide)).2.2.2.2
      1 true⟩

/-- After a successful reload the cached players are the sheet rows. -/
theorem load_true_players (s : Sys) :
    (load_data_from_sheets true s).cache.players = s.sheet_players := rfl

/-- After a successful reload the cached matches are the sheet rows. -/
theorem load_true_matches (s : Sys) :
    (load_data_from_sheets true s).cache.matches = s.sheet_matches := rfl

/-- After a successful reload the player counter is recomputed from the sheet. -/
theorem load_true_next_player (s : Sys) :
    (load_data_from_sheets true s).cache.next_player_id
      = maxId (s.sheet_players.map Player.id) + 1 := rfl

/-- After a successful reload the match counter is recomputed from the sheet. -/
theorem load_true_next_match (s : Sys) :
    (load_data_from_sheets true s).cache.next_match_id
      = maxId (s.sheet_matches.map Match.id) + 1 := rfl

/-- C6: a fully successful `DELETE /players/{id}` on a present player removes
the players with that id and exactly the matches whose `player_id` equals it;
every other player and every match of another player survives. -/
theorem delete_player_cascades (s : Sys) (pid : Int)
    (h : ∃ p ∈ s.cache.players, p.id = pid) :
    (handle_player_DELETE s pid true true true).1.status = 200 ∧
    (handle_player_DELETE s pid true true true).2.cache.players
      = s.cache.players.filter (fun p => p.id != pid) ∧
    (handle_player_DELETE s pid true true true).2.cache.matches
      = s.cache.matches.filter (fun m => m.player_id != pid) ∧
    (∀ m ∈ (handle_player_DELETE s pid true true true).2.cache.matches,
      m.player_id ≠ pid) ∧
    (∀ m ∈ s.cache.matches, m.player_id ≠ pid →
      m ∈ (handle_player_DELETE s pid true true true).2.cache.matches) ∧
    (∀ p ∈ s.cache.players, p.id ≠ pid →
      p ∈ (handle_player_DELETE s pid true true true).2.cache.players) := by
  have hsome : (s.cache.players.find? (fun p => p.id == pid)).isSome := by
    rw [List.find?_isSome]
    obtain ⟨p, hp, hpe⟩ := h
    exact ⟨p, hp, by simpa using hpe⟩
  obtain ⟨pl, hpl⟩ := Option.isSome_iff_exists.mp hsome
  have hres : handle_player_DELETE s pid true true true
      = (⟨200, .message "Player and associated matches deleted successfully"⟩,
        load_data_from_sheets true
          { sheet_players := s.cache.players.filter (fun p => p.id != pid)
            sheet_matches := s.cache.matches.filter (fun m => m.player_id != pid)
            cache := { s.cache with
              players := s.cache.players.filter (fun p => p.id != pid)
              «matches» :=
                s.cache.matches.filter (fun m => m.player_id != pid) } }) := by
    simp [handle_player_DELETE, hpl]
  rw [hres]
  refine ⟨rfl, rfl, rfl, ?_, ?_, ?_⟩
  · intro m hm
    have := (List.mem_filter.mp hm).2
    simpa using this
  · intro m hm hne
    exact List.mem_filter.mpr ⟨hm, by simpa using hne⟩
  · intro p hp hne
    exact List.mem_filter.mpr ⟨hp, by simpa using hne⟩

/-- Witness for C6: deleting player 1 of a two-player state filters out
exactly that player and its match. -/
theorem delete_player_cascades_witness :
    (handle_player_DELETE (mkSys [pAmit, pRohit] [mOne, mTwo])
      1 true true true).1.status = 200 ∧
    (handle_player_DELETE (mkSys [pAmit, pRohit] [mOne, mTwo])
      1 true true true).2.cache.players
      = (mkSys [pAmit, pRohit] [mOne, mTwo]).cache.players.filter
          (fun p => p.id != 1) ∧
    (handle_player_DELETE (mkSys [pAmit, pRohit] [mOne, mTwo])
      1 true true true).2.cache.matches
      = (mkSys [pAmit, pRohit] [mOne, mTwo]).cache.matches.filter
          (fun m => m.player_id != 1) :=
  ⟨(delete_player_cascades (mkSys [pAmit, pRohit] [mOne, mTwo]) 1
      ⟨pAmit, by decide, by decide⟩).1,
    (delete_player_cascades (mkSys [pAmit, pRohit] [mOne, mTwo]) 1
      ⟨pAmit, by decide, by decide⟩).2.1,
    (delete_player_cascades (mkSys [pAmit, pRohit] [mOne, mTwo]) 1
      ⟨pAmit, by decide, by decide⟩).2.2.1⟩

/-- C3 counterexample: player `pRohit` holds id 2; after a successful DELETE
of that highest-ID player, a successful create assigns id 2 again to a
distinct record — the same id is handed to two distinct players within one
process lifetime. -/
theorem player_id_reused_after_delete :
    pRohit ∈ (mkSys [pAmit, pRohit] [mOne, mTwo]).cache.players ∧
    pRohit.id = 2 ∧
    (handle_player_DELETE (mkSys [pAmit, pRohit] [mOne, mTwo])
      2 true true true).1.status = 200 ∧
    (handle_players_POST
      (handle_player_DELETE (mkSys [pAmit, pRohit] [mOne, mTwo])
        2 true true true).2
      ⟨some "New", none, none, none⟩ true true).1.status = 201 ∧
    (handle_players_POST
      (handle_player_DELETE (mkSys [pAmit, pRohit] [mOne, mTwo])
        2 true true true).2
      ⟨some "New", none, none, none⟩ true true).1.body.playerId = some 2 ∧
    (⟨2, "New", "", "", ""⟩ : Player) ≠ pRohit := by
  decide

/-- Characterization of a successful `POST /players`: the branch conditions
that must have held. -/
theorem post_201_inv (s : Sys) (data : PlayerBody) (r : Bool)
    (h201 : (handle_players_POST s data true r).1.status = 201) :
    ∃ name, data.name = some name ∧ ¬ name = "" ∧
      s.cache.players.any (fun p => pyLower p.name == pyLower name) = false := by
  match hn : data.name with
  | none =>
    rw [post_missing_name_eq s data true r (Or.inl hn)] at h201
    simp at h201
  | some name =>
    by_cases h1 : name = ""
    · rw [post_missing_name_eq s data true r (Or.inr (h1 ▸ hn))] at h201
      simp at h201
    · by_cases h2 : s.cache.players.any
          (fun p => pyLower p.name == pyLower name) = true
      · rw [post_duplicate_eq s data true r name hn h1 h2] at h201
        simp at h201
      · exact ⟨name, rfl, h1, by simpa using h2⟩

/-- The successful branch of `POST /players`, written out. -/
theorem post_201_eq (s : Sys) (data : PlayerBody) (r : Bool) (name : String)
    (hn : data.name = some name) (hne : ¬ name = "")
    (hany : s.cache.players.any
      (fun p => pyLower p.name == pyLower name) = false) :
    handle_players_POST s data true r
      = (⟨201, .playerDetail ⟨s.cache.next_player_id, name, data.role.getD "",
            data.batting_style.getD "", data.bowling_style.getD ""⟩ []⟩,
        load_data_from_sheets r
          { sheet_players := s.cache.players ++ [⟨s.cache.next_player_id, name,
              data.role.getD "", data.batting_style.getD "",
              data.bowling_style.getD ""⟩]
            sheet_matches := s.sheet_matches
            cache := { s.cache with
              players := s.cache.players ++ [⟨s.cache.next_player_id, name,
                data.role.getD "", data.batting_style.getD "",
                data.bowling_style.getD ""⟩]
              next_player_id := s.cache.next_player_id + 1 } }) := by
  simp [handle_players_POST, hn, hne, hany]

/-- A successful `POST /players/{id}/matches` implies the parent exists. -/
theorem add_match_201_inv (s : Sys) (pid : Int) (data : MatchBody) (r : Bool)
    (h201 : (add_match_to_player s pid data true r).1.status = 201) :
    s.cache.players.any (fun p => p.id == pid) = true := by
  by_cases hex : s.cache.players.any (fun p => p.id == pid) = true
  · exact hex
  · have hexf : s.cache.players.any (fun p => p.id == pid) = false := by
      simpa using hex
    rw [show add_match_to_player s pid data true r
        = (⟨404, .error "Player not found"⟩, s) by
      simp [add_match_to_player, hexf]] at h201
    simp at h201

/-- The successful branch of `POST /players/{id}/matches`, written out. -/
theorem add_match_201_eq (s : Sys) (pid : Int) (data : MatchBody) (r : Bool)
    (hex : s.cache.players.any (fun p => p.id == pid) = true) :
    add_match_to_player s pid data true r
      = (⟨201, .matchJson ⟨s.cache.next_match_id, pid, data.did_bat.getD false,
            data.runs.getD 0, data.balls.getD 0, data.wickets.getD 0,
            data.overs.getD 0, data.conceded.getD 0, data.catches.getD 0,
            data.stumpings.getD 0, data.run_outs.getD 0⟩⟩,
        load_data_from_sheets r
          { sheet_players := s.sheet_players
            sheet_matches := s.cache.matches ++ [⟨s.cache.next_match_id, pid,
              data.did_bat.getD false, data.runs.getD 0, data.balls.getD 0,
              data.wickets.getD 0, data.overs.getD 0, data.conceded.getD 0,
              data.catches.getD 0, data.stumpings.getD 0, data.run_outs.getD 0⟩]
            cache := { s.cache with
              «matches» := s.cache.matches ++ [⟨s.cache.next_match_id, pid,
                data.did_bat.getD false, data.runs.getD 0, data.balls.getD 0,
                data.wickets.getD 0, data.overs.getD 0, data.conceded.getD 0,
                data.catches.getD 0, data.stumpings.getD 0,
                data.run_outs.getD 0⟩]
              next_match_id := s.cache.next_match_id + 1 } }) := by
  simp [add_match_to_player, hex]

/-- C3 amended: when every stored ID sits below its (nonnegative) counter, a
successful create assigns exactly the counter value as the new ID and leaves
the counter at one more than before, so IDs strictly increase across
consecutive successful creates and the invariant is preserved — for players
and matches alike.  (The unrestricted claim fails: a failed create rolls the
counter back, and deleting the highest-ID record lowers the recomputed
counter, so such IDs are reassigned.) -/
theorem id_assignment_monotone_of_invariant (s : Sys)
    (hP : ∀ p ∈ s.cache.players, p.id < s.cache.next_player_id)
    (hM : ∀ m ∈ s.cache.matches, m.id < s.cache.next_match_id)
    (hP0 : 0 ≤ s.cache.next_player_id) (hM0 : 0 ≤ s.cache.next_match_id) :
    (∀ data, (handle_players_POST s data true true).1.status = 201 →
      (handle_players_POST s data true true).1.body.playerId
          = some s.cache.next_player_id ∧
      (handle_players_POST s data true true).2.cache.next_player_id
          = s.cache.next_player_id + 1 ∧
      ∀ p ∈ (handle_players_POST s data true true).2.cache.players,
        p.id < (handle_players_POST s data true true).2.cache.next_player_id) ∧
    (∀ pid data, (add_match_to_player s pid data true true).1.status = 201 →
      (add_match_to_player s pid data true true).1.body.matchId
          = some s.cache.next_match_id ∧
      (add_match_to_player s pid data true true).2.cache.next_match_id
          = s.cache.next_match_id + 1 ∧
      ∀ m ∈ (add_match_to_player s pid data true true).2.cache.matches,
        m.id < (add_match_to_player s pid data true true).2.cache.next_match_id) := by
  constructor
  · intro data h201
    obtain ⟨name, hn, hne, hany⟩ := post_201_inv s data true h201
    rw [post_201_eq s data true name hn hne hany]
    have hmax : maxId ((s.cache.players ++ [(⟨s.cache.next_player_id, name,
        data.role.getD "", data.batting_style.getD "",
        data.bowling_style.getD ""⟩ : Player)]).map Player.id)
        = s.cache.next_player_id := by
      rw [List.map_append]
      exact maxId_append_singleton _ _ hP0 (by
        intro x hx
        obtain ⟨p, hp, rfl⟩ := List.mem_map.mp hx
        exact le_of_lt (hP p hp))
    refine ⟨rfl, ?_, ?_⟩
    · rw [load_true_next_player]
      simp only []
      rw [hmax]
    · intro p hp
      rw [load_true_next_player]
      rw [load_true_players] at hp
      simp only [] at hp ⊢
      rw [hmax]
      rcases List.mem_append.mp hp with hp | hp
      · exact lt_trans (hP p hp) (lt_add_one _)
      · rw [List.mem_singleton.mp hp]
        exact lt_add_one _
  · intro pid data h201
    have hex := add_match_201_inv s pid data true h201
    rw [add_match_201_eq s pid data true hex]
    have hmax : maxId ((s.cache.matches ++ [(⟨s.cache.next_match_id, pid,
        data.did_bat.getD false, data.runs.getD 0, data.balls.getD 0,
        data.wickets.getD 0, data.overs.getD 0, data.conceded.getD 0,
        data.catches.getD 0, data.stumpings.getD 0,
        data.run_outs.getD 0⟩ : Match)]).map Match.id)
        = s.cache.next_match_id := by
      rw [List.map_append]
      exact maxId_append_singleton _ _ hM0 (by
        intro x hx
        obtain ⟨m, hm, rfl⟩ := List.mem_map.mp hx
        exact le_of_lt (hM m hm))
    refine ⟨rfl, ?_, ?_⟩
    · rw [load_true_next_match]
      simp only []
      rw [hmax]
    · intro m hm
      rw [load_true_next_match]
      rw [load_true_matches] at hm
      simp only [] at hm ⊢
      rw [hmax]
      rcases List.mem_append.mp hm with hm | hm
      · exact lt_trans (hM m hm) (lt_add_one _)
      · rw [List.mem_singleton.mp hm]
        exact lt_add_one _

/-- Witness for the amended C3: starting from a concrete invariant-respecting
state, a successful player create answers with id 2 and bumps the counter to
3, and a successful match add answers with id 2 and bumps that counter to 3. -/
theorem id_assignment_monotone_of_invariant_witness :
    ((handle_players_POST (mkSys [pAmit] [mOne])
        ⟨some "New", none, none, none⟩ true true).1.body.playerId = some 2 ∧
      (handle_players_POST (mkSys [pAmit] [mOne])
        ⟨some "New", none, none, none⟩ true true).2.cache.next_player_id = 3) ∧
    ((add_match_to_player (mkSys [pAmit] [mOne]) 1 {} true true).1.body.matchId
        = some 2 ∧
      (add_match_to_player (mkSys [pAmit] [mOne])
        1 {} true true).2.cache.next_match_id = 3) :=
  ⟨⟨((id_assignment_monotone_of_invariant (mkSys [pAmit] [mOne]) (by decide)
        (by decide) (by decide) (by decide)).1
      ⟨some "New", none, none, none⟩ (by decide)).1,
    ((id_assignment_monotone_of_invariant (mkSys [pAmit] [mOne]) (by decide)
        (by decide) (by decide) (by decide)).1
      ⟨some "New", none, none, none⟩ (by decide)).2.1⟩,
  ⟨((id_assignment_monotone_of_invariant (mkSys [pAmit] [mOne]) (by decide)
        (by decide) (by decide) (by decide)).2 1 {} (by decide)).1,
    ((id_assignment_monotone_of_invariant (mkSys [pAmit] [mOne]) (by decide)
        (by decide) (by decide) (by decide)).2 1 {} (by decide)).2.1⟩⟩

/-- C7: from any state whose cache mirrors the matches sheet and respects the
ID invariants, a successful `POST /players` with body
`{name: "Rahul", role: "batsman"}` answers with the new id, and a `GET` on
that id returns a player with the same name and role and an empty matches
list. -/
theorem post_then_get_roundtrip (s : Sys)
    (hsync : s.sheet_matches = s.cache.matches)
    (hP : ∀ p ∈ s.cache.players, p.id < s.cache.next_player_id)
    (hM : ∀ m ∈ s.cache.matches, m.player_id < s.cache.next_player_id)
    (h201 : (handle_players_POST s rahulBody true true).1.status = 201) :
    (handle_players_POST s rahulBody true true).1.body.playerId
      = some s.cache.next_player_id ∧
    handle_player_GET (handle_players_POST s rahulBody true true).2
        s.cache.next_player_id
      = ⟨200, .playerDetail
          ⟨s.cache.next_player_id, "Rahul", "batsman", "", ""⟩ []⟩ := by
  obtain ⟨name, hn, hne, hany⟩ := post_201_inv s rahulBody true h201
  have hname : name = "Rahul" := by
    have h' : (some "Rahul" : Option String) = some name := hn
    exact (Option.some.inj h').symm
  subst hname
  have hne' : ¬("Rahul" = "") := by decide
  have heq : handle_players_POST s rahulBody true true
      = (⟨201, .playerDetail
            ⟨s.cache.next_player_id, "Rahul", "batsman", "", ""⟩ []⟩,
        load_data_from_sheets true
          { sheet_players := s.cache.players
              ++ [⟨s.cache.next_player_id, "Rahul", "batsman", "", ""⟩]
            sheet_matches := s.sheet_matches
            cache := { s.cache with
              players := s.cache.players
                ++ [⟨s.cache.next_player_id, "Rahul", "batsman", "", ""⟩]
              next_player_id := s.cache.next_player_id + 1 } }) := by
    simp [handle_players_POST, rahulBody, hne', hany]
  rw [heq]
  refine ⟨rfl, ?_⟩
  have hpre : s.cache.players.find?
      (fun p => p.id == s.cache.next_player_id) = none := by
    rw [List.find?_eq_none]
    intro p hp
    simp only [beq_iff_eq]
    exact ne_of_lt (hP p hp)
  have hfind : (s.cache.players
      ++ [(⟨s.cache.next_player_id, "Rahul", "batsman", "", ""⟩ : Player)]).find?
      (fun p => p.id == s.cache.next_player_id)
      = some ⟨s.cache.next_player_id, "Rahul", "batsman", "", ""⟩ := by
    rw [List.find?_append, hpre]
    simp
  have hfilter : s.cache.matches.filter
      (fun m => m.player_id == s.cache.next_player_id) = [] := by
    rw [List.filter_eq_nil_iff]
    intro m hm
    simp only [beq_iff_eq]
    exact ne_of_lt (hM m hm)
  simp only [handle_player_GET, load_true_players, load_true_matches]
  rw [hsync]
  simp [hfind, hfilter]

/-- Witness for C7: the round trip from the empty state. -/
theorem post_then_get_roundtrip_witness :
    (handle_players_POST (mkSys [] []) rahulBody true true).1.body.playerId
      = some (mkSys [] []).cache.next_player_id ∧
    handle_player_GET (handle_players_POST (mkSys [] []) rahulBody true true).2
        (mkSys [] []).cache.next_player_id
      = ⟨200, .playerDetail
          ⟨(mkSys [] []).cache.next_player_id, "Rahul", "batsman", "", ""⟩ []⟩ :=
  post_then_get_roundtrip (mkSys [] []) rfl (by decide) (by decide) (by decide)

end CBZ
